import Mathlib

/-!
Verification of the Python client `examples/python_client.py` of the
google-maps-scraper repository.

The Python code is shallowly embedded: Python runtime values that can flow
through the untyped parts of the client (JSON payloads, dataclass fields) are
modelled by the inductive `Json`; Python floats are modelled by `PyFloat`
(exact rationals for finite values, plus infinities and NaN; IEEE-754 rounding
of finite literals is abstracted away, while overflow of literals beyond the
double range to an infinity is modelled by a magnitude cutoff at 2^1024).
Python exceptions are modelled by `Except PyError`.  Network effects are
modelled by passing the responses a fake service would produce; wall-clock
time in the polling loop is modelled by an explicit elapsed-time counter that
advances by the poll interval on every sleep.
-/

set_option maxRecDepth 16384

namespace PyMaps

/-- Python exception values raised by the client code paths that we model. -/
inductive PyError where
  | valueError (msg : String)
  | overflowError (msg : String)
  | jsonDecodeError (msg : String)
  | attributeError (msg : String)
  | typeError (msg : String)
  | keyError (msg : String)
  | runtimeError (msg : String)
  | timeoutError (msg : String)
  | clientResponseError (status : Nat)
  deriving DecidableEq, Repr

/-- Python float values.  Finite doubles are abstracted to exact rationals;
`inf`, `neginf` and `nan` are the special values.  No claim depends on
IEEE-754 rounding of finite values. -/
inductive PyFloat where
  | finite (q : ℚ)
  | inf
  | neginf
  | nan
  deriving DecidableEq, Repr

/-- Magnitudes at or above 2^1024 are outside the double range: Python float
conversion returns an infinity there (e.g. float of the text 1e999). -/
def overflowToInf (q : ℚ) : PyFloat :=
  if q.num.natAbs ≥ 2 ^ 1024 * q.den then
    (if q.num < 0 then PyFloat.neginf else PyFloat.inf)
  else PyFloat.finite q

/-- Python whitespace characters stripped by float() and str.strip(). -/
def isPyWs (c : Char) : Bool :=
  c = ' ' || c = '\t' || c = '\n' || c = '\r' || c = Char.ofNat 11 || c = Char.ofNat 12

/-- Strip Python whitespace from both ends of a character list. -/
def stripChars (cs : List Char) : List Char :=
  ((cs.dropWhile isPyWs).reverse.dropWhile isPyWs).reverse

/-- Python str.strip() with no argument. -/
def pyStrip (s : String) : String := String.mk (stripChars s.data)

/-- Numeric value of a list of decimal digit characters. -/
def natOfDigits (ds : List Char) : Nat :=
  ds.foldl (fun acc c => 10 * acc + (c.toNat - '0'.toNat)) 0

/-- Scan a maximal run of decimal digits in which single underscores may
appear between two digits (the Python numeric-literal underscore rule);
returns the digits with underscores removed, and the unconsumed rest. -/
def digitRun (acc : List Char) : List Char → (List Char × List Char)
  | [] => (acc, [])
  | c :: rest =>
    if c.isDigit then digitRun (acc ++ [c]) rest
    else if c = '_' then
      match rest with
      | d :: rest2 => if d.isDigit then digitRun (acc ++ [d]) rest2 else (acc, c :: rest)
      | [] => (acc, [c])
    else (acc, c :: rest)

/-- A digit run that must start with a digit. -/
def digitGroup : List Char → Option (List Char × List Char)
  | [] => none
  | c :: rest => if c.isDigit then some (digitRun [c] rest) else none

/-- Rational value of an integer digit part and a fractional digit part. -/
def qOfParts (ip fp : List Char) : ℚ :=
  (natOfDigits ip : ℚ) + (natOfDigits fp : ℚ) / ((10 : ℚ) ^ fp.length)

/-- Parse the mantissa of a Python float literal: digits, an optional dot,
optional fractional digits; at least one digit overall. -/
def parseMantissa (cs : List Char) : Option (ℚ × List Char) :=
  match digitGroup cs with
  | some (ip, rest) =>
    match rest with
    | '.' :: rest2 =>
      match digitGroup rest2 with
      | some (fp, rest3) => some (qOfParts ip fp, rest3)
      | none => some (qOfParts ip [], rest2)
    | _ => some (qOfParts ip [], rest)
  | none =>
    match cs with
    | '.' :: rest2 =>
      match digitGroup rest2 with
      | some (fp, rest3) => some (qOfParts [] fp, rest3)
      | none => none
    | _ => none

/-- Scale a rational by a signed power of ten. -/
def scalePow10 (q : ℚ) (e : Int) : ℚ :=
  if 0 ≤ e then q * ((10 : ℚ) ^ e.toNat) else q / ((10 : ℚ) ^ (-e).toNat)

/-- Parse an optional exponent part of a Python float literal.  Returns the
exponent and the rest; fails if an exponent marker is present but malformed. -/
def parseExpPart : List Char → Option (Int × List Char)
  | [] => some (0, [])
  | c :: rest =>
    if c = 'e' ∨ c = 'E' then
      let signed : (Bool × List Char) :=
        match rest with
        | '+' :: r => (false, r)
        | '-' :: r => (true, r)
        | _ => (false, rest)
      match digitGroup signed.2 with
      | some (ds, rest3) =>
        some ((if signed.1 then -(natOfDigits ds : Int) else (natOfDigits ds : Int)), rest3)
      | none => none
    else some (0, c :: rest)

/-- Python float(str): strip whitespace, optional sign, then a case
insensitive inf, infinity or nan constant, or a decimal literal with an
optional exponent.  Returns none where Python float() raises ValueError.
Non-ASCII digits accepted by Python are not modelled. -/
def pyFloatOfString (s : String) : Option PyFloat :=
  let cs := stripChars s.data
  let signed : (Bool × List Char) :=
    match cs with
    | '+' :: r => (false, r)
    | '-' :: r => (true, r)
    | _ => (false, cs)
  let low := signed.2.map Char.toLower
  if low = "inf".data ∨ low = "infinity".data then
    some (if signed.1 then PyFloat.neginf else PyFloat.inf)
  else if low = "nan".data then some PyFloat.nan
  else
    match parseMantissa signed.2 with
    | some (m, rest) =>
      match parseExpPart rest with
      | some (e, []) =>
        some (overflowToInf (scalePow10 (if signed.1 then -m else m) e))
      | _ => none
    | none => none

/-- Python int(f) on a float: truncation toward zero for finite values,
ValueError on NaN, OverflowError on an infinity. -/
def pyIntOfFloat : PyFloat → Except PyError Int
  | PyFloat.finite q => Except.ok (q.num.tdiv (q.den : Int))
  | PyFloat.nan => Except.error (PyError.valueError "cannot convert float NaN to integer")
  | PyFloat.inf => Except.error (PyError.overflowError "cannot convert float infinity to integer")
  | PyFloat.neginf => Except.error (PyError.overflowError "cannot convert float infinity to integer")

/-- Python runtime values that can appear in the dynamically typed parts of
the client: JSON payloads and dataclass fields.  Dictionaries are modelled as
association lists with distinct keys (Python dict preserves insertion order;
`dictInsert` updates in place like a dict assignment). -/
inductive Json where
  | null
  | bool (b : Bool)
  | int (n : Int)
  | float (f : PyFloat)
  | str (s : String)
  | arr (elems : List Json)
  | obj (entries : List (String × Json))

/-- Insert into a Python dict modelled as an association list: an existing
key keeps its position and gets the new value, a new key is appended. -/
def dictInsert : List (String × Json) → String → Json → List (String × Json)
  | [], k, v => [(k, v)]
  | (k0, v0) :: rest, k, v =>
    if k0 = k then (k0, v) :: rest else (k0, v0) :: dictInsert rest k v

/-- Python dict lookup (keys are distinct, so first match suffices). -/
def dictGet? : List (String × Json) → String → Option Json
  | [], _ => none
  | (k0, v0) :: rest, k => if k0 = k then some v0 else dictGet? rest k

/-- JSON whitespace characters. -/
def isJsonWs (c : Char) : Bool := c = ' ' || c = '\t' || c = '\n' || c = '\r'

/-- Skip JSON whitespace. -/
def skipJsonWs (cs : List Char) : List Char := cs.dropWhile isJsonWs

/-- Value of a hexadecimal digit character. -/
def hexVal (c : Char) : Option Nat :=
  if c.isDigit then some (c.toNat - '0'.toNat)
  else if 'a' ≤ c ∧ c ≤ 'f' then some (c.toNat - 'a'.toNat + 10)
  else if 'A' ≤ c ∧ c ≤ 'F' then some (c.toNat - 'A'.toNat + 10)
  else none

/-- Parse the body of a JSON string after the opening quote.  Unescaped
control characters are rejected (the json module default, strict mode).
Combining of surrogate pairs in unicode escapes is not modelled;
Char.ofNat maps invalid scalar values to the zero character. -/
def parseJsonStr (acc : List Char) : List Char → Option (String × List Char)
  | [] => none
  | '\\' :: rest =>
    match rest with
    | '"' :: r => parseJsonStr (acc ++ ['"']) r
    | '\\' :: r => parseJsonStr (acc ++ ['\\']) r
    | '/' :: r => parseJsonStr (acc ++ ['/']) r
    | 'b' :: r => parseJsonStr (acc ++ [Char.ofNat 8]) r
    | 'f' :: r => parseJsonStr (acc ++ [Char.ofNat 12]) r
    | 'n' :: r => parseJsonStr (acc ++ ['\n']) r
    | 'r' :: r => parseJsonStr (acc ++ ['\r']) r
    | 't' :: r => parseJsonStr (acc ++ ['\t']) r
    | 'u' :: h1 :: h2 :: h3 :: h4 :: r =>
      match hexVal h1, hexVal h2, hexVal h3, hexVal h4 with
      | some a, some b, some c, some d =>
        parseJsonStr (acc ++ [Char.ofNat (((a * 16 + b) * 16 + c) * 16 + d)]) r
      | _, _, _, _ => none
    | _ => none
  | '"' :: rest => some (String.mk acc, rest)
  | c :: rest => if c.toNat < 32 then none else parseJsonStr (acc ++ [c]) rest

/-- A maximal run of plain decimal digits. -/
def jsonDigitRun (acc : List Char) : List Char → (List Char × List Char)
  | [] => (acc, [])
  | c :: rest => if c.isDigit then jsonDigitRun (acc ++ [c]) rest else (acc, c :: rest)

/-- One or more plain decimal digits. -/
def jsonDigits : List Char → Option (List Char × List Char)
  | [] => none
  | c :: rest => if c.isDigit then some (jsonDigitRun [c] rest) else none

/-- Parse a JSON number: optional minus, integer part without leading zeros,
optional fraction, optional exponent.  A number with a fraction or exponent
becomes a Python float, otherwise a Python int. -/
def parseJsonNumber (cs : List Char) : Option (Json × List Char) :=
  let signed : Bool × List Char := match cs with | '-' :: r => (true, r) | _ => (false, cs)
  match jsonDigits signed.2 with
  | none => none
  | some (ds, rest1) =>
    if 1 < ds.length ∧ ds.headD 'x' = '0' then none
    else
      let fracStep : Option (List Char × Bool × List Char) :=
        match rest1 with
        | '.' :: r2 =>
          match jsonDigits r2 with
          | none => none
          | some (fs, r3) => some (fs, true, r3)
        | _ => some ([], false, rest1)
      match fracStep with
      | none => none
      | some (fs, hasFrac, rest2) =>
        let expStep : Option (Int × Bool × List Char) :=
          match rest2 with
          | [] => some (0, false, [])
          | c :: r3 =>
            if c = 'e' ∨ c = 'E' then
              let sgn : Bool × List Char :=
                match r3 with
                | '+' :: r4 => (false, r4)
                | '-' :: r4 => (true, r4)
                | _ => (false, r3)
              match jsonDigits sgn.2 with
              | none => none
              | some (es, r5) =>
                some ((if sgn.1 then -(natOfDigits es : Int) else (natOfDigits es : Int)), true, r5)
            else some (0, false, c :: r3)
        match expStep with
        | none => none
        | some (e, hasExp, rest3) =>
          if hasFrac ∨ hasExp then
            let q := scalePow10 (if signed.1 then -(qOfParts ds fs) else qOfParts ds fs) e
            some (Json.float (overflowToInf q), rest3)
          else
            some (Json.int (if signed.1 then -(natOfDigits ds : Int) else (natOfDigits ds : Int)), rest3)

mutual

/-- Parse one JSON value.  The json module also accepts the non-standard
constants NaN, Infinity and -Infinity by default.  Fuel bounds the mutual
recursion; jsonLoads supplies more fuel than any input can consume. -/
def parseJsonValue : Nat → List Char → Option (Json × List Char)
  | 0, _ => none
  | Nat.succ fuel, cs =>
    match skipJsonWs cs with
    | '"' :: rest => (parseJsonStr [] rest).map (fun p => (Json.str p.1, p.2))
    | 't' :: 'r' :: 'u' :: 'e' :: rest => some (Json.bool true, rest)
    | 'f' :: 'a' :: 'l' :: 's' :: 'e' :: rest => some (Json.bool false, rest)
    | 'n' :: 'u' :: 'l' :: 'l' :: rest => some (Json.null, rest)
    | 'N' :: 'a' :: 'N' :: rest => some (Json.float PyFloat.nan, rest)
    | 'I' :: 'n' :: 'f' :: 'i' :: 'n' :: 'i' :: 't' :: 'y' :: rest =>
      some (Json.float PyFloat.inf, rest)
    | '-' :: 'I' :: 'n' :: 'f' :: 'i' :: 'n' :: 'i' :: 't' :: 'y' :: rest =>
      some (Json.float PyFloat.neginf, rest)
    | '[' :: rest =>
      match skipJsonWs rest with
      | ']' :: rest2 => some (Json.arr [], rest2)
      | cs2 => parseJsonElems fuel cs2 []
    | '{' :: rest =>
      match skipJsonWs rest with
      | '}' :: rest2 => some (Json.obj [], rest2)
      | cs2 => parseJsonMembers fuel cs2 []
    | cs2 => parseJsonNumber cs2

/-- Parse the comma separated elements of a JSON array up to the closing
bracket. -/
def parseJsonElems : Nat → List Char → List Json → Option (Json × List Char)
  | 0, _, _ => none
  | Nat.succ fuel, cs, acc =>
    match parseJsonValue fuel cs with
    | none => none
    | some (v, rest) =>
      match skipJsonWs rest with
      | ',' :: rest2 => parseJsonElems fuel rest2 (acc ++ [v])
      | ']' :: rest2 => some (Json.arr (acc ++ [v]), rest2)
      | _ => none

/-- Parse the comma separated members of a JSON object up to the closing
brace, building the dict with dictInsert (a repeated key overwrites). -/
def parseJsonMembers : Nat → List Char → List (String × Json) → Option (Json × List Char)
  | 0, _, _ => none
  | Nat.succ fuel, cs, acc =>
    match skipJsonWs cs with
    | '"' :: rest =>
      match parseJsonStr [] rest with
      | none => none
      | some (k, rest2) =>
        match skipJsonWs rest2 with
        | ':' :: rest3 =>
          match parseJsonValue fuel rest3 with
          | none => none
          | some (v, rest4) =>
            match skipJsonWs rest4 with
            | ',' :: rest5 => parseJsonMembers fuel rest5 (dictInsert acc k v)
            | '}' :: rest5 => some (Json.obj (dictInsert acc k v), rest5)
            | _ => none
        | _ => none
    | _ => none

end

/-- Python json.loads: parse one value and require only whitespace after it.
Returns none where json.loads raises JSONDecodeError. -/
def jsonLoads (s : String) : Option Json :=
  match parseJsonValue (2 * s.length + 8) s.data with
  | some (v, rest) => if skipJsonWs rest = [] then some v else none
  | none => none

/-- The single-quote character used by the Python repr of strings. -/
def pyQuote : String := String.mk [Char.ofNat 39]

/-- Rendering of a Python float in messages.  The shortest round-trip
decimal repr of CPython is not modelled; finite values are rendered as a
fraction.  No claim depends on float rendering. -/
def pyFloatRepr : PyFloat → String
  | PyFloat.inf => "inf"
  | PyFloat.neginf => "-inf"
  | PyFloat.nan => "nan"
  | PyFloat.finite q => toString q.num ++ "/" ++ toString q.den

mutual

/-- Python repr of a value (quoting of special characters inside reprs of
strings is not modelled; no claim depends on it). -/
def pyRepr : Json → String
  | Json.null => "None"
  | Json.bool true => "True"
  | Json.bool false => "False"
  | Json.int n => toString n
  | Json.float f => pyFloatRepr f
  | Json.str s => pyQuote ++ s ++ pyQuote
  | Json.arr xs => "[" ++ String.intercalate ", " (pyReprList xs) ++ "]"
  | Json.obj kvs => "\x7b" ++ String.intercalate ", " (pyReprObj kvs) ++ "\x7d"

/-- Reprs of the elements of a list. -/
def pyReprList : List Json → List String
  | [] => []
  | x :: xs => pyRepr x :: pyReprList xs

/-- Reprs of the members of a dict. -/
def pyReprObj : List (String × Json) → List String
  | [] => []
  | (k, v) :: kvs => (pyQuote ++ k ++ pyQuote ++ ": " ++ pyRepr v) :: pyReprObj kvs

end

/-- Python str() as used by f-string interpolation: a str interpolates as
itself, anything else as its repr (str of None, bools, ints, containers
coincides with repr). -/
def pyStr : Json → String
  | Json.str s => s
  | j => pyRepr j

/-- Interpolation of the result of dict.get with no default: a missing key
gives None, which interpolates as the text None. -/
def pyStrOfGet : Option Json → String
  | none => "None"
  | some j => pyStr j

/-- A CSV row as produced by csv.DictReader: a Python dict from column name
to cell text. -/
def Row := List (String × String)

/-- Python dict lookup on a row. -/
def rowGet? : Row → String → Option String
  | [], _ => none
  | (k0, v0) :: rest, k => if k0 = k then some v0 else rowGet? rest k

/-- Python dict.get with a default on a row. -/
def rowGetD (row : Row) (k dflt : String) : String := (rowGet? row k).getD dflt

/-- Python str.split on the comma character: cut at every comma, keeping
empty pieces. -/
def splitCommaChars (acc : List Char) : List Char → List String
  | [] => [String.mk acc]
  | c :: rest =>
    if c = ',' then String.mk acc :: splitCommaChars [] rest
    else splitCommaChars (acc ++ [c]) rest

/-- Python s.split on a comma. -/
def pySplitComma (s : String) : List String := splitCommaChars [] s.data

/-- Python s.startswith of a single-character marker. -/
def startsWithChar (s : String) (c : Char) : Bool :=
  match s.data with
  | [] => false
  | c0 :: _ => c0 = c

/-- The helper parse_json of from_csv_row: empty or missing cell gives the
default, a JSONDecodeError is caught and gives the default. -/
def parse_json (row : Row) (fieldName : String) (dflt : Json) : Json :=
  let val := rowGetD row fieldName ""
  if val = "" then dflt
  else
    match jsonLoads val with
    | some j => j
    | none => dflt

/-- The helper parse_float of from_csv_row: empty or missing cell gives the
default, a ValueError from float() is caught and gives the default. -/
def parse_float (row : Row) (fieldName : String) (dflt : PyFloat) : PyFloat :=
  let val := rowGetD row fieldName ""
  if val = "" then dflt
  else
    match pyFloatOfString val with
    | some f => f
    | none => dflt

/-- The helper parse_int of from_csv_row, computing int(float(val)): empty or
missing cell gives the default, and a ValueError from float() or from int()
of a NaN is caught and gives the default — but int() of an infinite float
raises OverflowError, which the except clause of the source does not catch,
so it propagates. -/
def parse_int (row : Row) (fieldName : String) (dflt : Int) : Except PyError Int :=
  let val := rowGetD row fieldName ""
  if val = "" then Except.ok dflt
  else
    match pyFloatOfString val with
    | none => Except.ok dflt
    | some f =>
      match pyIntOfFloat f with
      | Except.ok n => Except.ok n
      | Except.error (PyError.valueError _) => Except.ok dflt
      | Except.error e => Except.error e

/-- The dataclass MapsResult.  The fields follow the Python runtime values,
not the dataclass annotations (Python does not enforce them): string cells
stay strings, parse_int gives an int, parse_float a float, parse_json an
arbitrary JSON value, and from_dict stores raw JSON values. -/
structure MapsResult where
  input_id : Json
  link : Json
  cid : Json
  title : Json
  category : Json
  address : Json
  open_hours : Json
  popular_times : Json
  web_site : Json
  phone : Json
  plus_code : Json
  review_count : Json
  review_rating : Json
  reviews_per_rating : Json
  latitude : Json
  longitude : Json
  status : Json
  description : Json
  reviews_link : Json
  thumbnail : Json
  timezone : Json
  price_range : Json
  data_id : Json
  place_id : Json
  images : Json
  reservations : Json
  order_online : Json
  menu : Json
  owner : Json
  complete_address : Json
  about : Json
  user_reviews : Json
  emails : Json

/-- The emails expression of from_csv_row: a non-empty cell starting with a
bracket is parsed as JSON with default empty list, any other non-empty cell
is split on commas with each piece stripped, and an empty or missing cell
gives the empty list. -/
def emailsOfRow (row : Row) : Json :=
  match rowGet? row "emails" with
  | some s =>
    if s ≠ "" ∧ startsWithChar s '[' then parse_json row "emails" (Json.arr [])
    else if s ≠ "" then
      Json.arr ((pySplitComma s).map (fun x => Json.str (pyStrip x)))
    else Json.arr []
  | none => Json.arr []

/-- MapsResult.from_csv_row.  The only subexpression that can raise is
parse_int on the review_count cell (OverflowError on an infinite float); it
is evaluated where Python would evaluate it, and any exception propagates as
the result of the classmethod. -/
def MapsResult.from_csv_row (row : Row) : Except PyError MapsResult :=
  match parse_int row "review_count" 0 with
  | Except.error e => Except.error e
  | Except.ok rc =>
    Except.ok
      { input_id := Json.str (rowGetD row "input_id" "")
        link := Json.str (rowGetD row "link" "")
        title := Json.str (rowGetD row "title" "")
        category := Json.str (rowGetD row "category" "")
        address := Json.str (rowGetD row "address" "")
        open_hours := parse_json row "open_hours" (Json.obj [])
        popular_times := parse_json row "popular_times" (Json.obj [])
        web_site := Json.str (rowGetD row "website" "")
        phone := Json.str (rowGetD row "phone" "")
        plus_code := Json.str (rowGetD row "plus_code" "")
        review_count := Json.int rc
        review_rating := Json.float (parse_float row "review_rating" (PyFloat.finite 0))
        reviews_per_rating := parse_json row "reviews_per_rating" (Json.obj [])
        latitude := Json.float (parse_float row "latitude" (PyFloat.finite 0))
        longitude := Json.float (parse_float row "longitude" (PyFloat.finite 0))
        cid := Json.str (rowGetD row "cid" "")
        status := Json.str (rowGetD row "status" "")
        description := Json.str (rowGetD row "descriptions" "")
        reviews_link := Json.str (rowGetD row "reviews_link" "")
        thumbnail := Json.str (rowGetD row "thumbnail" "")
        timezone := Json.str (rowGetD row "timezone" "")
        price_range := Json.str (rowGetD row "price_range" "")
        data_id := Json.str (rowGetD row "data_id" "")
        place_id := Json.str (rowGetD row "place_id" "")
        images := parse_json row "images" (Json.arr [])
        reservations := parse_json row "reservations" (Json.arr [])
        order_online := parse_json row "order_online" (Json.arr [])
        menu := parse_json row "menu" (Json.obj [])
        owner := parse_json row "owner" (Json.obj [])
        complete_address := parse_json row "complete_address" (Json.obj [])
        about := parse_json row "about" (Json.arr [])
        user_reviews := parse_json row "user_reviews" (Json.arr [])
        emails := emailsOfRow row }

/-- Python dict.get with a default on a JSON-valued dict. -/
def dictGetD (d : List (String × Json)) (k : String) (dflt : Json) : Json :=
  (dictGet? d k).getD dflt

/-- MapsResult.from_dict: every field is data.get with a default, except
longitude, which reads the misspelled key longtitude when that key is in the
dict and falls back to the key longitude otherwise. -/
def MapsResult.from_dict (data : List (String × Json)) : MapsResult :=
  { input_id := dictGetD data "input_id" (Json.str "")
    link := dictGetD data "link" (Json.str "")
    cid := dictGetD data "cid" (Json.str "")
    title := dictGetD data "title" (Json.str "")
    category := dictGetD data "category" (Json.str "")
    address := dictGetD data "address" (Json.str "")
    open_hours := dictGetD data "open_hours" (Json.obj [])
    popular_times := dictGetD data "popular_times" (Json.obj [])
    web_site := dictGetD data "web_site" (Json.str "")
    phone := dictGetD data "phone" (Json.str "")
    plus_code := dictGetD data "plus_code" (Json.str "")
    review_count := dictGetD data "review_count" (Json.int 0)
    review_rating := dictGetD data "review_rating" (Json.float (PyFloat.finite 0))
    reviews_per_rating := dictGetD data "reviews_per_rating" (Json.obj [])
    latitude := dictGetD data "latitude" (Json.float (PyFloat.finite 0))
    longitude :=
      if (dictGet? data "longtitude").isSome then
        dictGetD data "longtitude" (Json.float (PyFloat.finite 0))
      else dictGetD data "longitude" (Json.float (PyFloat.finite 0))
    status := dictGetD data "status" (Json.str "")
    description := dictGetD data "description" (Json.str "")
    reviews_link := dictGetD data "reviews_link" (Json.str "")
    thumbnail := dictGetD data "thumbnail" (Json.str "")
    timezone := dictGetD data "timezone" (Json.str "")
    price_range := dictGetD data "price_range" (Json.str "")
    data_id := dictGetD data "data_id" (Json.str "")
    place_id := dictGetD data "place_id" (Json.str "")
    images := dictGetD data "images" (Json.arr [])
    reservations := dictGetD data "reservations" (Json.arr [])
    order_online := dictGetD data "order_online" (Json.arr [])
    menu := dictGetD data "menu" (Json.obj [])
    owner := dictGetD data "owner" (Json.obj [])
    complete_address := dictGetD data "complete_address" (Json.obj [])
    about := dictGetD data "about" (Json.arr [])
    user_reviews := dictGetD data "user_reviews" (Json.arr [])
    emails := dictGetD data "emails" (Json.arr []) }

/-- States of the csv.reader field scanner (default dialect: comma
delimiter, double-quote quoting, doubled quotes as escapes). -/
inductive CsvState where
  | startField
  | inField
  | inQuoted
  | quoteInQuoted
  | afterCR

/-- Scanner of csv.reader: cur is the field being read, rec the fields of
the record being read, out the finished records.  A record ends at a
newline (CR, LF or CRLF) outside quotes; a blank line yields an empty
record; afterCR absorbs the LF of a CRLF pair. -/
def csvScan (st : CsvState) (cur : List Char) (rec : List String) (out : List (List String)) :
    List Char → List (List String)
  | [] =>
    match st with
    | CsvState.afterCR => out
    | CsvState.startField =>
      if rec.isEmpty then out else out ++ [rec ++ [String.mk cur]]
    | _ => out ++ [rec ++ [String.mk cur]]
  | c :: rest =>
    match st with
    | CsvState.afterCR =>
      if c = '\n' then csvScan CsvState.startField [] [] out rest
      else if c = '"' then csvScan CsvState.inQuoted [] [] out rest
      else if c = ',' then csvScan CsvState.startField [] [""] out rest
      else if c = '\r' then csvScan CsvState.afterCR [] [] (out ++ [[]]) rest
      else csvScan CsvState.inField [c] [] out rest
    | CsvState.startField =>
      if c = '"' then csvScan CsvState.inQuoted cur rec out rest
      else if c = ',' then csvScan CsvState.startField [] (rec ++ [String.mk cur]) out rest
      else if c = '\n' then
        csvScan CsvState.startField [] []
          (if rec.isEmpty then out ++ [[]] else out ++ [rec ++ [String.mk cur]]) rest
      else if c = '\r' then
        csvScan CsvState.afterCR [] []
          (if rec.isEmpty then out ++ [[]] else out ++ [rec ++ [String.mk cur]]) rest
      else csvScan CsvState.inField (cur ++ [c]) rec out rest
    | CsvState.inField =>
      if c = ',' then csvScan CsvState.startField [] (rec ++ [String.mk cur]) out rest
      else if c = '\n' then csvScan CsvState.startField [] [] (out ++ [rec ++ [String.mk cur]]) rest
      else if c = '\r' then csvScan CsvState.afterCR [] [] (out ++ [rec ++ [String.mk cur]]) rest
      else csvScan CsvState.inField (cur ++ [c]) rec out rest
    | CsvState.inQuoted =>
      if c = '"' then csvScan CsvState.quoteInQuoted cur rec out rest
      else csvScan CsvState.inQuoted (cur ++ [c]) rec out rest
    | CsvState.quoteInQuoted =>
      if c = '"' then csvScan CsvState.inQuoted (cur ++ [c]) rec out rest
      else if c = ',' then csvScan CsvState.startField [] (rec ++ [String.mk cur]) out rest
      else if c = '\n' then csvScan CsvState.startField [] [] (out ++ [rec ++ [String.mk cur]]) rest
      else if c = '\r' then csvScan CsvState.afterCR [] [] (out ++ [rec ++ [String.mk cur]]) rest
      else csvScan CsvState.inField (cur ++ [c]) rec out rest

/-- csv.reader over a whole text: the list of records, each a list of
cells. -/
def csvReadRows (s : String) : List (List String) :=
  csvScan CsvState.startField [] [] [] s.data

/-- Insert into a string-valued Python dict modelled as an association
list, like dict assignment. -/
def dictInsertStr : List (String × String) → String → String → List (String × String)
  | [], k, v => [(k, v)]
  | (k0, v0) :: rest, k, v =>
    if k0 = k then (k0, v) :: rest else (k0, v0) :: dictInsertStr rest k v

/-- dict(zip(header, cells)) of csv.DictReader: pair columns with cells,
truncating at the shorter list; a repeated header keeps the last cell.
The None padding that DictReader uses for rows shorter than the header is
modelled as an absent key (both mean a missing cell; no claim reaches the
difference). -/
def mkRow (header cells : List String) : Row :=
  (List.zip header cells).foldl (fun d kv => dictInsertStr d kv.1 kv.2) []

/-- csv.DictReader over a whole text: the first record names the columns,
blank records are skipped, and every other record becomes a dict. -/
def csvDictRows (s : String) : List Row :=
  match csvReadRows s with
  | [] => []
  | header :: rest => (rest.filter (fun r => ¬r.isEmpty)).map (mkRow header)

/-- The HTTP response the fake service gives to one status poll.  The body
is the parsed JSON document, or none when the body is not valid JSON (in
which case response.json() raises). -/
structure StatusResponse where
  code : Nat
  body : Option Json

/-- The HTTP response the fake service gives to the job creation request. -/
structure SubmitResponse where
  code : Nat
  text : String
  body : Option Json

/-- The HTTP response the fake service gives to the download request. -/
structure DownloadResponse where
  code : Nat
  text : String

/-- MapsScraperClient.submit_job, driven by the response of the service:
a non-201 status raises RuntimeError with the status and body text; on 201
the body is parsed as JSON (raising when malformed) and indexed at id,
raising KeyError when the key is missing and TypeError when the body is not
a document.  The URL and request payload construction has no observable
effect on the returned value and is not modelled. -/
def submit_job (resp : SubmitResponse) : Except PyError Json :=
  if resp.code ≠ 201 then
    Except.error
      (PyError.runtimeError ("Failed to submit job: " ++ toString resp.code ++ " " ++ resp.text))
  else
    match resp.body with
    | none => Except.error (PyError.jsonDecodeError "submit response body is not valid JSON")
    | some (Json.obj kvs) =>
      match dictGet? kvs "id" with
      | some v => Except.ok v
      | none => Except.error (PyError.keyError "id")
    | some _ => Except.error (PyError.typeError "indexing a non-dict JSON body")

/-- Result of the polling loop over a finite trace of responses: the
returned payload, a raised exception, or pending when the trace ran out
before a terminal state or the deadline (the real loop would keep
polling). -/
inductive PollOutcome where
  | ok (payload : Json)
  | err (e : PyError)
  | pending

/-- MapsScraperClient.wait_for_job over a trace of responses.  The elapsed
time t starts at 0 and grows by poll_s at each sleep; the deadline check
time minus start greater than timeout happens at the top of every
iteration.  A 404 falls through, any other non-200 logs a warning and falls
through; a 200 body is parsed as JSON (raising when malformed) and its
status field is compared by exact string match: finished and ok return the
payload, failed and error raise RuntimeError carrying the error field of
the payload, anything else falls through.  Falling through sleeps poll_s
and retries. -/
def wait_for_job (timeout_s poll_s : Nat) (jobId : Json) :
    Nat → List StatusResponse → PollOutcome
  | t, resps =>
    if timeout_s < t then
      PollOutcome.err (PyError.timeoutError ("Job " ++ pyStr jobId ++ " timed out"))
    else
      match resps with
      | [] => PollOutcome.pending
      | r :: rest =>
        if r.code = 404 then wait_for_job timeout_s poll_s jobId (t + poll_s) rest
        else if r.code ≠ 200 then wait_for_job timeout_s poll_s jobId (t + poll_s) rest
        else
          match r.body with
          | none =>
            PollOutcome.err (PyError.jsonDecodeError "status response body is not valid JSON")
          | some (Json.obj kvs) =>
            match dictGet? kvs "status" with
            | some (Json.str s) =>
              if s = "finished" ∨ s = "ok" then PollOutcome.ok (Json.obj kvs)
              else if s = "failed" ∨ s = "error" then
                PollOutcome.err
                  (PyError.runtimeError
                    ("Job " ++ pyStr jobId ++ " failed: " ++ pyStrOfGet (dictGet? kvs "error")))
              else wait_for_job timeout_s poll_s jobId (t + poll_s) rest
            | _ => wait_for_job timeout_s poll_s jobId (t + poll_s) rest
          | some _ =>
            PollOutcome.err
              (PyError.attributeError "a non-dict JSON value has no attribute get")

/-- A status response is transient when processing it makes the polling
loop sleep and retry: any non-200 status, or a 200 JSON document whose
status field is absent, not a string, or none of the four terminal
strings.  A 200 response with an unparseable or non-document body is not
transient: it makes the loop raise. -/
def StatusResponse.isTransient (r : StatusResponse) : Bool :=
  if r.code = 404 then true
  else if r.code ≠ 200 then true
  else
    match r.body with
    | some (Json.obj kvs) =>
      match dictGet? kvs "status" with
      | some (Json.str s) => !(s = "finished" || s = "ok" || s = "failed" || s = "error")
      | _ => true
    | _ => false

/-- MapsScraperClient.download_csv: response.raise_for_status() raises for
any status of 400 or above, otherwise the body text is returned. -/
def download_csv (resp : DownloadResponse) : Except PyError String :=
  if 400 ≤ resp.code then Except.error (PyError.clientResponseError resp.code)
  else Except.ok resp.text

/-- The decode loop of fetch_places: results starts empty and each decoded
row is appended; an exception from a row abandons the loop and the list. -/
def decodeLoop (acc : List MapsResult) : List Row → Except PyError (List MapsResult)
  | [] => Except.ok acc
  | row :: rest =>
    match MapsResult.from_csv_row row with
    | Except.error e => Except.error e
    | Except.ok r => decodeLoop (acc ++ [r]) rest

/-- The responses a fake remote service gives to the three HTTP operations
that one fetch_places call performs. -/
structure FakeService where
  submitResp : SubmitResponse
  statusResps : List StatusResponse
  downloadResp : DownloadResponse

/-- MapsScraperClient.fetch_places: submit, poll, download, then decode the
rows of the CSV text in order.  The result is none when the polling loop is
still pending after the supplied trace (the real call would not have
returned yet). -/
def fetch_places (svc : FakeService) (timeout_s poll_s : Nat) :
    Option (Except PyError (List MapsResult)) :=
  match submit_job svc.submitResp with
  | Except.error e => some (Except.error e)
  | Except.ok jobId =>
    match wait_for_job timeout_s poll_s jobId 0 svc.statusResps with
    | PollOutcome.pending => none
    | PollOutcome.err e => some (Except.error e)
    | PollOutcome.ok _ =>
      match download_csv svc.downloadResp with
      | Except.error e => some (Except.error e)
      | Except.ok csvContent => some (decodeLoop [] (csvDictRows csvContent))

/-! Helper lemmas shared by the claim theorems. -/

lemma string_mk_data (s : String) : String.mk s.data = s := rfl

lemma splitCommaChars_no_comma :
    ∀ (cs acc : List Char), ',' ∉ cs → splitCommaChars acc cs = [String.mk (acc ++ cs)] := by
  intro cs
  induction cs with
  | nil => intro acc _; simp [splitCommaChars]
  | cons c rest ih =>
    intro acc h
    simp only [List.mem_cons, not_or] at h
    have hc : ¬c = ',' := fun e => h.1 e.symm
    simp only [splitCommaChars, if_neg hc]
    rw [ih (acc ++ [c]) h.2]
    simp

lemma pySplitComma_no_comma (s : String) (h : ',' ∉ s.data) : pySplitComma s = [s] := by
  unfold pySplitComma
  rw [splitCommaChars_no_comma s.data [] h]
  simp [string_mk_data]

lemma from_csv_row_ok (row : Row) (r : MapsResult)
    (h : MapsResult.from_csv_row row = Except.ok r) :
    r.emails = emailsOfRow row ∧
    r.web_site = Json.str (rowGetD row "website" "") ∧
    r.description = Json.str (rowGetD row "descriptions" "") ∧
    r.review_rating = Json.float (parse_float row "review_rating" (PyFloat.finite 0)) ∧
    r.latitude = Json.float (parse_float row "latitude" (PyFloat.finite 0)) ∧
    r.longitude = Json.float (parse_float row "longitude" (PyFloat.finite 0)) ∧
    ∀ n, parse_int row "review_count" 0 = Except.ok n → r.review_count = Json.int n := by
  unfold MapsResult.from_csv_row at h
  cases hpi : parse_int row "review_count" 0 with
  | error e => rw [hpi] at h; cases h
  | ok rc =>
    rw [hpi] at h
    injection h with h
    subst h
    refine ⟨rfl, rfl, rfl, rfl, rfl, rfl, ?_⟩
    intro n hn
    injection hn with hn
    exact congrArg Json.int hn

/-- Claim C2 (status: code_bug).  The claim and the spec state that decoding
a row never raises, but parse_int computes int(float(val)) catching only
ValueError: a review_count cell holding the valid float text inf makes
int() raise OverflowError, which propagates out of from_csv_row.  This
theorem evaluates the embedded code at the failing input. -/
theorem C2_from_csv_row_raises_on_infinite_review_count :
    MapsResult.from_csv_row [("review_count", "inf")]
      = Except.error (PyError.overflowError "cannot convert float infinity to integer") := rfl

/-- Claim C8: the column website fills the field web_site and the column
descriptions fills the field description; an absent or empty cell yields
the empty-string default and never an error; a row with no website column
decodes with web_site equal to the empty string. -/
theorem C8_scalar_name_mapping :
    (∀ (row : Row) (r : MapsResult), MapsResult.from_csv_row row = Except.ok r →
       r.web_site = Json.str (rowGetD row "website" "") ∧
       r.description = Json.str (rowGetD row "descriptions" "")) ∧
    (∀ (row : Row) (r : MapsResult), MapsResult.from_csv_row row = Except.ok r →
       rowGet? row "website" = none → r.web_site = Json.str "") ∧
    (MapsResult.from_csv_row [("title", "T")]).map (fun r => r.web_site)
      = Except.ok (Json.str "") := by
  refine ⟨?_, ?_, rfl⟩
  · intro row r h
    obtain ⟨-, h1, h2, -⟩ := from_csv_row_ok row r h
    exact ⟨h1, h2⟩
  · intro row r h hw
    obtain ⟨-, h1, -⟩ := from_csv_row_ok row r h
    rw [h1]
    unfold rowGetD
    rw [hw]
    rfl

/-- Witness for C8 at a concrete row with no website column. -/
theorem C8_scalar_name_mapping_witness :
    ∃ r, MapsResult.from_csv_row [("title", "T")] = Except.ok r ∧ r.web_site = Json.str "" := by
  have hok : (MapsResult.from_csv_row [("title", "T")]).isOk = true := rfl
  cases hcase : MapsResult.from_csv_row ([("title", "T")] : Row) with
  | error e => rw [hcase] at hok; cases hok
  | ok r =>
    exact ⟨r, rfl, ((C8_scalar_name_mapping.1 _ r hcase).1).trans rfl⟩

/-- Claim C9: from_dict fills longitude from the misspelled key longtitude
whenever that key is present, even when longitude is also present with a
different value, and falls back to the key longitude only when longtitude
is absent. -/
theorem C9_longtitude_priority :
    (∀ (data : List (String × Json)) (v : Json),
       dictGet? data "longtitude" = some v → (MapsResult.from_dict data).longitude = v) ∧
    (∀ data : List (String × Json),
       dictGet? data "longtitude" = none →
       (MapsResult.from_dict data).longitude
         = dictGetD data "longitude" (Json.float (PyFloat.finite 0))) ∧
    (MapsResult.from_dict [("longtitude", Json.int 1), ("longitude", Json.int 2)]).longitude
      = Json.int 1 := by
  refine ⟨?_, ?_, rfl⟩
  · intro data v h
    show (if (dictGet? data "longtitude").isSome then
            dictGetD data "longtitude" (Json.float (PyFloat.finite 0))
          else dictGetD data "longitude" (Json.float (PyFloat.finite 0))) = v
    rw [h]
    simp [dictGetD, h]
  · intro data h
    show (if (dictGet? data "longtitude").isSome then
            dictGetD data "longtitude" (Json.float (PyFloat.finite 0))
          else dictGetD data "longitude" (Json.float (PyFloat.finite 0))) = _
    rw [h]
    simp

/-- Witness for C9: both keys present with different values, the misspelled
one wins. -/
theorem C9_longtitude_priority_witness :
    (MapsResult.from_dict [("longtitude", Json.int 5), ("longitude", Json.int 7)]).longitude
      = Json.int 5 :=
  C9_longtitude_priority.1 _ (Json.int 5) rfl

/-- Claim C10: a non-empty emails cell with no comma and no leading bracket
yields the one-element sequence holding the stripped cell text; hence a
whitespace-only cell yields a sequence with one empty string, not the empty
sequence. -/
theorem C10_emails_single_piece :
    (∀ (s : String) (row : Row) (r : MapsResult),
       MapsResult.from_csv_row row = Except.ok r →
       rowGet? row "emails" = some s → s ≠ "" →
       startsWithChar s '[' = false → ',' ∉ s.data →
       r.emails = Json.arr [Json.str (pyStrip s)]) ∧
    (MapsResult.from_csv_row [("emails", "   ")]).map (fun r => r.emails)
      = Except.ok (Json.arr [Json.str ""]) := by
  refine ⟨?_, rfl⟩
  intro s row r h hget hne hnb hnc
  obtain ⟨he, -⟩ := from_csv_row_ok row r h
  rw [he]
  unfold emailsOfRow
  rw [hget]
  show (if s ≠ "" ∧ startsWithChar s '[' = true then parse_json row "emails" (Json.arr [])
        else if s ≠ "" then Json.arr ((pySplitComma s).map (fun x => Json.str (pyStrip x)))
        else Json.arr []) = Json.arr [Json.str (pyStrip s)]
  rw [if_neg (by simp [hnb])]
  rw [if_pos hne]
  rw [pySplitComma_no_comma s hnc]
  rfl

/-- Witness for C10 at a whitespace-only emails cell. -/
theorem C10_emails_single_piece_witness :
    ∃ r, MapsResult.from_csv_row [("emails", "   ")] = Except.ok r ∧
      r.emails = Json.arr [Json.str (pyStrip "   ")] := by
  have hok : (MapsResult.from_csv_row [("emails", "   ")]).isOk = true := rfl
  cases hcase : MapsResult.from_csv_row ([("emails", "   ")] : Row) with
  | error e => rw [hcase] at hok; cases hok
  | ok r =>
    refine ⟨r, rfl, ?_⟩
    exact C10_emails_single_piece.1 "   " _ r hcase rfl (by decide) rfl (by decide)

/-- Claim C6: the decoded emails field follows the three-way policy: an
empty or absent cell yields the empty sequence, a non-empty cell starting
with the list marker is parsed as a nested document, and any other
non-empty cell is split on commas with each piece stripped; in particular
the two cells of the claim decode as stated. -/
theorem C6_emails_policy :
    (∀ (row : Row) (r : MapsResult), MapsResult.from_csv_row row = Except.ok r →
       rowGet? row "emails" = none ∨ rowGet? row "emails" = some "" →
       r.emails = Json.arr []) ∧
    (∀ (row : Row) (r : MapsResult) (s : String), MapsResult.from_csv_row row = Except.ok r →
       rowGet? row "emails" = some s → s ≠ "" → startsWithChar s '[' = true →
       r.emails = parse_json row "emails" (Json.arr [])) ∧
    (∀ (row : Row) (r : MapsResult) (s : String), MapsResult.from_csv_row row = Except.ok r →
       rowGet? row "emails" = some s → s ≠ "" → startsWithChar s '[' = false →
       r.emails = Json.arr ((pySplitComma s).map (fun x => Json.str (pyStrip x)))) ∧
    (MapsResult.from_csv_row [("emails", "a@x.com, b@y.com")]).map (fun r => r.emails)
      = Except.ok (Json.arr [Json.str "a@x.com", Json.str "b@y.com"]) ∧
    (MapsResult.from_csv_row [("emails", "[\"a@x.com\"]")]).map (fun r => r.emails)
      = Except.ok (Json.arr [Json.str "a@x.com"]) := by
  refine ⟨?_, ?_, ?_, rfl, rfl⟩
  · intro row r h hget
    obtain ⟨he, -⟩ := from_csv_row_ok row r h
    rw [he]
    unfold emailsOfRow
    cases hget with
    | inl hnone => rw [hnone]
    | inr hempty =>
      rw [hempty]
      show (if ("" : String) ≠ "" ∧ startsWithChar "" '[' = true then
              parse_json row "emails" (Json.arr [])
            else if ("" : String) ≠ "" then
              Json.arr ((pySplitComma "").map (fun x => Json.str (pyStrip x)))
            else Json.arr []) = Json.arr []
      rw [if_neg (by simp), if_neg (by simp)]
  · intro row r s h hget hne hb
    obtain ⟨he, -⟩ := from_csv_row_ok row r h
    rw [he]
    unfold emailsOfRow
    rw [hget]
    show (if s ≠ "" ∧ startsWithChar s '[' = true then parse_json row "emails" (Json.arr [])
          else if s ≠ "" then Json.arr ((pySplitComma s).map (fun x => Json.str (pyStrip x)))
          else Json.arr []) = parse_json row "emails" (Json.arr [])
    rw [if_pos ⟨hne, hb⟩]
  · intro row r s h hget hne hb
    obtain ⟨he, -⟩ := from_csv_row_ok row r h
    rw [he]
    unfold emailsOfRow
    rw [hget]
    show (if s ≠ "" ∧ startsWithChar s '[' = true then parse_json row "emails" (Json.arr [])
          else if s ≠ "" then Json.arr ((pySplitComma s).map (fun x => Json.str (pyStrip x)))
          else Json.arr []) = Json.arr ((pySplitComma s).map (fun x => Json.str (pyStrip x)))
    rw [if_neg (by simp [hb]), if_pos hne]

/-- Witness for C6 at a concrete comma-separated emails cell. -/
theorem C6_emails_policy_witness :
    ∃ r, MapsResult.from_csv_row [("emails", "a@x.com, b@y.com")] = Except.ok r ∧
      r.emails = Json.arr ((pySplitComma "a@x.com, b@y.com").map (fun x => Json.str (pyStrip x))) := by
  have hok : (MapsResult.from_csv_row [("emails", "a@x.com, b@y.com")]).isOk = true := rfl
  cases hcase : MapsResult.from_csv_row ([("emails", "a@x.com, b@y.com")] : Row) with
  | error e => rw [hcase] at hok; cases hok
  | ok r =>
    refine ⟨r, rfl, ?_⟩
    exact C6_emails_policy.2.2.1 _ r "a@x.com, b@y.com" hcase rfl (by decide) rfl

/-- Claim C7: the numeric fields are parsed from their cells through
parse_float and parse_int; an empty or missing cell or a cell float()
rejects yields the zero default without an exception; review_count of 12.0
decodes to the integer 12 and review_count of abc decodes to 0. -/
theorem C7_numeric_fields :
    (∀ (row : Row) (k : String) (dflt : PyFloat),
       rowGet? row k = none ∨ rowGet? row k = some "" → parse_float row k dflt = dflt) ∧
    (∀ (row : Row) (k : String) (dflt : PyFloat) (s : String),
       rowGet? row k = some s → pyFloatOfString s = none → parse_float row k dflt = dflt) ∧
    (∀ (row : Row) (k : String) (dflt : Int),
       rowGet? row k = none ∨ rowGet? row k = some "" → parse_int row k dflt = Except.ok dflt) ∧
    (∀ (row : Row) (k : String) (dflt : Int) (s : String),
       rowGet? row k = some s → pyFloatOfString s = none → parse_int row k dflt = Except.ok dflt) ∧
    (∀ (row : Row) (r : MapsResult), MapsResult.from_csv_row row = Except.ok r →
       r.review_rating = Json.float (parse_float row "review_rating" (PyFloat.finite 0)) ∧
       r.latitude = Json.float (parse_float row "latitude" (PyFloat.finite 0)) ∧
       r.longitude = Json.float (parse_float row "longitude" (PyFloat.finite 0)) ∧
       ∀ n, parse_int row "review_count" 0 = Except.ok n → r.review_count = Json.int n) ∧
    (MapsResult.from_csv_row [("review_count", "12.0")]).map (fun r => r.review_count)
      = Except.ok (Json.int 12) ∧
    (MapsResult.from_csv_row [("review_count", "abc")]).map (fun r => r.review_count)
      = Except.ok (Json.int 0) := by
  refine ⟨?_, ?_, ?_, ?_, ?_, by with_unfolding_all rfl, by with_unfolding_all rfl⟩
  · intro row k dflt hget
    unfold parse_float rowGetD
    cases hget with
    | inl hnone => rw [hnone]; rfl
    | inr hempty => rw [hempty]; rfl
  · intro row k dflt s hget hpf
    unfold parse_float rowGetD
    rw [hget]
    show (if s = "" then dflt else match pyFloatOfString s with
          | some f => f
          | none => dflt) = dflt
    by_cases hs : s = ""
    · rw [if_pos hs]
    · rw [if_neg hs, hpf]
  · intro row k dflt hget
    unfold parse_int rowGetD
    cases hget with
    | inl hnone => rw [hnone]; rfl
    | inr hempty => rw [hempty]; rfl
  · intro row k dflt s hget hpf
    unfold parse_int rowGetD
    rw [hget]
    show (if s = "" then Except.ok dflt else match pyFloatOfString s with
          | none => Except.ok dflt
          | some f =>
            match pyIntOfFloat f with
            | Except.ok n => Except.ok n
            | Except.error (PyError.valueError _) => Except.ok dflt
            | Except.error e => Except.error e) = Except.ok dflt
    by_cases hs : s = ""
    · rw [if_pos hs]
    · rw [if_neg hs, hpf]
  · intro row r h
    obtain ⟨-, -, -, h1, h2, h3, h4⟩ := from_csv_row_ok row r h
    exact ⟨h1, h2, h3, h4⟩

/-- Witness for C7: parse_int on a non-numeric cell gives the default with
no exception. -/
theorem C7_numeric_fields_witness :
    parse_int [("review_count", "abc")] "review_count" 0 = Except.ok 0 :=
  C7_numeric_fields.2.2.2.1 _ "review_count" 0 "abc" rfl rfl

/-! Step lemmas for the polling loop, shared by the claims about
wait_for_job. -/

lemma wait_step_non200 (timeout_s poll_s t : Nat) (jobId : Json) (code : Nat)
    (body : Option Json) (rest : List StatusResponse)
    (ht : ¬timeout_s < t) (hc : code ≠ 200) :
    wait_for_job timeout_s poll_s jobId t (StatusResponse.mk code body :: rest)
      = wait_for_job timeout_s poll_s jobId (t + poll_s) rest := by
  conv_lhs => rw [wait_for_job]
  rw [if_neg ht]
  by_cases h404 : code = 404
  · simp [h404]
  · simp [h404, hc]

lemma wait_step_status_nonterminal (timeout_s poll_s t : Nat) (jobId : Json)
    (kvs : List (String × Json)) (s : String) (rest : List StatusResponse)
    (ht : ¬timeout_s < t) (hst : dictGet? kvs "status" = some (Json.str s))
    (h1 : ¬(s = "finished" ∨ s = "ok")) (h2 : ¬(s = "failed" ∨ s = "error")) :
    wait_for_job timeout_s poll_s jobId t
        (StatusResponse.mk 200 (some (Json.obj kvs)) :: rest)
      = wait_for_job timeout_s poll_s jobId (t + poll_s) rest := by
  conv_lhs => rw [wait_for_job]
  rw [if_neg ht]
  simp [hst, h1, h2]

lemma wait_step_status_shapeless (timeout_s poll_s t : Nat) (jobId : Json)
    (kvs : List (String × Json)) (rest : List StatusResponse)
    (ht : ¬timeout_s < t)
    (hst : ∀ s, dictGet? kvs "status" ≠ some (Json.str s)) :
    wait_for_job timeout_s poll_s jobId t
        (StatusResponse.mk 200 (some (Json.obj kvs)) :: rest)
      = wait_for_job timeout_s poll_s jobId (t + poll_s) rest := by
  conv_lhs => rw [wait_for_job]
  rw [if_neg ht]
  cases hv : dictGet? kvs "status" with
  | none => simp [hv]
  | some v =>
    cases v with
    | str s => exact absurd hv (hst s)
    | null => simp [hv]
    | bool b => simp [hv]
    | int n => simp [hv]
    | float f => simp [hv]
    | arr xs => simp [hv]
    | obj o => simp [hv]

lemma wait_step_transient (timeout_s poll_s t : Nat) (jobId : Json)
    (r : StatusResponse) (rest : List StatusResponse)
    (htr : r.isTransient = true) (ht : ¬timeout_s < t) :
    wait_for_job timeout_s poll_s jobId t (r :: rest)
      = wait_for_job timeout_s poll_s jobId (t + poll_s) rest := by
  obtain ⟨code, body⟩ := r
  unfold StatusResponse.isTransient at htr
  by_cases h200 : code = 200
  · subst h200
    cases body with
    | none => simp at htr
    | some j =>
      cases j with
      | obj kvs =>
        cases hv : dictGet? kvs "status" with
        | none => exact wait_step_status_shapeless _ _ _ _ kvs rest ht (by simp [hv])
        | some v =>
          cases v with
          | str s =>
            simp [hv] at htr
            refine wait_step_status_nonterminal _ _ _ _ kvs s rest ht hv ?_ ?_ <;> tauto
          | null => exact wait_step_status_shapeless _ _ _ _ kvs rest ht (by simp [hv])
          | bool b => exact wait_step_status_shapeless _ _ _ _ kvs rest ht (by simp [hv])
          | int n => exact wait_step_status_shapeless _ _ _ _ kvs rest ht (by simp [hv])
          | float f => exact wait_step_status_shapeless _ _ _ _ kvs rest ht (by simp [hv])
          | arr xs => exact wait_step_status_shapeless _ _ _ _ kvs rest ht (by simp [hv])
          | obj o => exact wait_step_status_shapeless _ _ _ _ kvs rest ht (by simp [hv])
      | null => simp at htr
      | bool b => simp at htr
      | int n => simp at htr
      | float f => simp at htr
      | str s2 => simp at htr
      | arr xs => simp at htr
  · exact wait_step_non200 _ _ _ _ code body rest ht h200

lemma wait_all_transient (timeout_s poll_s : Nat) (jobId : Json) :
    ∀ (resps : List StatusResponse) (t : Nat),
      (∀ r ∈ resps, r.isTransient = true) →
      timeout_s < t + resps.length * poll_s →
      wait_for_job timeout_s poll_s jobId t resps
        = PollOutcome.err (PyError.timeoutError ("Job " ++ pyStr jobId ++ " timed out")) := by
  intro resps
  induction resps with
  | nil =>
    intro t _ hlen
    rw [wait_for_job]
    rw [if_pos (by simpa using hlen)]
  | cons r rest ih =>
    intro t htr hlen
    by_cases hlt : timeout_s < t
    · rw [wait_for_job]
      rw [if_pos hlt]
    · rw [wait_step_transient timeout_s poll_s t jobId r rest (htr r (List.mem_cons_self r rest)) hlt]
      apply ih (t + poll_s) (fun r2 h2 => htr r2 (List.mem_cons_of_mem r h2))
      have : (r :: rest).length = rest.length + 1 := List.length_cons r rest
      rw [this, Nat.succ_mul] at hlen
      omega

/-- Claim C3 counterexample: the claim says a malformed status payload is
non-terminal and makes the loop sleep and retry, but the code calls
response.json() with no handler: on a 200 response whose body is not valid
JSON the loop raises instead of retrying, so it never reaches the
following success response. -/
theorem C3_malformed_payload_counterexample :
    wait_for_job 100 5 (Json.str "J1") 0
        [StatusResponse.mk 200 none,
         StatusResponse.mk 200 (some (Json.obj [("status", Json.str "finished")]))]
      = PollOutcome.err (PyError.jsonDecodeError "status response body is not valid JSON") ∧
    wait_for_job 100 5 (Json.str "J1") 0
        [StatusResponse.mk 200 none,
         StatusResponse.mk 200 (some (Json.obj [("status", Json.str "finished")]))]
      ≠ PollOutcome.ok (Json.obj [("status", Json.str "finished")]) := by
  constructor
  · rfl
  · intro hcontra
    have h0 : wait_for_job 100 5 (Json.str "J1") 0
        [StatusResponse.mk 200 none,
         StatusResponse.mk 200 (some (Json.obj [("status", Json.str "finished")]))]
      = PollOutcome.err (PyError.jsonDecodeError "status response body is not valid JSON") := rfl
    rw [h0] at hcontra
    exact PollOutcome.noConfusion hcontra

/-- Claim C3 as amended: before the deadline, the poll loop classifies each
response by exact string match on its status field: finished or ok returns
the full payload at once, failed or error raises, any other status string
retries, as do a 404, any other non-200 status, and a JSON document without
a string status; but a 200 response whose body fails JSON parsing raises
the JSON decode error instead of retrying. -/
theorem C3_status_classification (timeout_s poll_s t : Nat) (jobId : Json)
    (rest : List StatusResponse) (ht : t ≤ timeout_s) :
    (∀ body, wait_for_job timeout_s poll_s jobId t (StatusResponse.mk 404 body :: rest)
        = wait_for_job timeout_s poll_s jobId (t + poll_s) rest) ∧
    (∀ code body, code ≠ 200 →
      wait_for_job timeout_s poll_s jobId t (StatusResponse.mk code body :: rest)
        = wait_for_job timeout_s poll_s jobId (t + poll_s) rest) ∧
    (∀ (kvs : List (String × Json)) (s : String),
      dictGet? kvs "status" = some (Json.str s) → s = "finished" ∨ s = "ok" →
      wait_for_job timeout_s poll_s jobId t
          (StatusResponse.mk 200 (some (Json.obj kvs)) :: rest)
        = PollOutcome.ok (Json.obj kvs)) ∧
    (∀ (kvs : List (String × Json)) (s : String),
      dictGet? kvs "status" = some (Json.str s) → s = "failed" ∨ s = "error" →
      wait_for_job timeout_s poll_s jobId t
          (StatusResponse.mk 200 (some (Json.obj kvs)) :: rest)
        = PollOutcome.err (PyError.runtimeError
            ("Job " ++ pyStr jobId ++ " failed: " ++ pyStrOfGet (dictGet? kvs "error")))) ∧
    (∀ (kvs : List (String × Json)) (s : String),
      dictGet? kvs "status" = some (Json.str s) →
      ¬(s = "finished" ∨ s = "ok") → ¬(s = "failed" ∨ s = "error") →
      wait_for_job timeout_s poll_s jobId t
          (StatusResponse.mk 200 (some (Json.obj kvs)) :: rest)
        = wait_for_job timeout_s poll_s jobId (t + poll_s) rest) ∧
    (∀ kvs : List (String × Json), (∀ s, dictGet? kvs "status" ≠ some (Json.str s)) →
      wait_for_job timeout_s poll_s jobId t
          (StatusResponse.mk 200 (some (Json.obj kvs)) :: rest)
        = wait_for_job timeout_s poll_s jobId (t + poll_s) rest) ∧
    (wait_for_job timeout_s poll_s jobId t (StatusResponse.mk 200 none :: rest)
      = PollOutcome.err (PyError.jsonDecodeError "status response body is not valid JSON")) := by
  have ht2 : ¬timeout_s < t := not_lt.mpr ht
  refine ⟨?_, ?_, ?_, ?_, ?_, ?_, ?_⟩
  · intro body
    exact wait_step_non200 _ _ _ _ 404 body rest ht2 (by decide)
  · intro code body hc
    exact wait_step_non200 _ _ _ _ code body rest ht2 hc
  · intro kvs s hst hs
    conv_lhs => rw [wait_for_job]
    rw [if_neg ht2]
    simp [hst, hs]
  · intro kvs s hst hs
    conv_lhs => rw [wait_for_job]
    rw [if_neg ht2]
    rcases hs with rfl | rfl <;> simp [hst]
  · intro kvs s hst h1 h2
    exact wait_step_status_nonterminal _ _ _ _ kvs s rest ht2 hst h1 h2
  · intro kvs hst
    exact wait_step_status_shapeless _ _ _ _ kvs rest ht2 hst
  · conv_lhs => rw [wait_for_job]
    rw [if_neg ht2]
    rfl

/-- Witness for the amended C3: a success response is returned at once. -/
theorem C3_status_classification_witness :
    wait_for_job 100 5 (Json.str "J1") 0
        [StatusResponse.mk 200 (some (Json.obj [("status", Json.str "ok")]))]
      = PollOutcome.ok (Json.obj [("status", Json.str "ok")]) :=
  (C3_status_classification 100 5 0 (Json.str "J1") [] (by decide)).2.2.1
    [("status", Json.str "ok")] "ok" rfl (Or.inr rfl)

/-- Claim C4: when every response of the trace is transient and the elapsed
time, which starts at the first attempt and grows by one poll interval per
retry and is never reset, exceeds the total timeout within the trace, the
loop raises the timeout error, whatever the transient responses contain. -/
theorem C4_poll_times_out (timeout_s poll_s : Nat) (jobId : Json)
    (resps : List StatusResponse)
    (htr : ∀ r ∈ resps, r.isTransient = true)
    (hlen : timeout_s < resps.length * poll_s) :
    wait_for_job timeout_s poll_s jobId 0 resps
      = PollOutcome.err (PyError.timeoutError ("Job " ++ pyStr jobId ++ " timed out")) :=
  wait_all_transient timeout_s poll_s jobId resps 0 htr (by simpa using hlen)

/-- Witness for C4: three transient responses of different kinds exhaust a
10 second deadline at a 5 second interval. -/
theorem C4_poll_times_out_witness :
    wait_for_job 10 5 (Json.str "J1") 0
        [StatusResponse.mk 404 none, StatusResponse.mk 503 none,
         StatusResponse.mk 200 (some (Json.obj [("status", Json.str "working")]))]
      = PollOutcome.err (PyError.timeoutError "Job J1 timed out") :=
  C4_poll_times_out 10 5 (Json.str "J1") _ (by decide) (by decide)

/-- Claim C5: a response whose status is failed or error makes the loop
raise the job-failed RuntimeError whose message embeds the interpolation of
the error field of the response; when that field is a string it appears in
the message verbatim, as a contiguous substring. -/
theorem C5_failed_status_raises (timeout_s poll_s t : Nat) (jobId : Json)
    (kvs : List (String × Json)) (rest : List StatusResponse) (s : String)
    (ht : t ≤ timeout_s)
    (hst : dictGet? kvs "status" = some (Json.str s))
    (hfe : s = "failed" ∨ s = "error") :
    wait_for_job timeout_s poll_s jobId t
        (StatusResponse.mk 200 (some (Json.obj kvs)) :: rest)
      = PollOutcome.err (PyError.runtimeError
          ("Job " ++ pyStr jobId ++ " failed: " ++ pyStrOfGet (dictGet? kvs "error"))) ∧
    ∀ e, dictGet? kvs "error" = some (Json.str e) →
      ∃ pre post,
        "Job " ++ pyStr jobId ++ " failed: " ++ pyStrOfGet (dictGet? kvs "error")
          = pre ++ e ++ post := by
  have ht2 : ¬timeout_s < t := not_lt.mpr ht
  constructor
  · conv_lhs => rw [wait_for_job]
    rw [if_neg ht2]
    rcases hfe with rfl | rfl <;> simp [hst]
  · intro e he
    refine ⟨"Job " ++ pyStr jobId ++ " failed: ", "", ?_⟩
    rw [he, String.append_empty]
    rfl

/-- Witness for C5 at a concrete failed response with error text boom. -/
theorem C5_failed_status_raises_witness :
    wait_for_job 100 5 (Json.str "J1") 0
        [StatusResponse.mk 200
          (some (Json.obj [("status", Json.str "failed"), ("error", Json.str "boom")]))]
      = PollOutcome.err (PyError.runtimeError "Job J1 failed: boom") ∧
    ∃ pre post, ("Job J1 failed: boom" : String) = pre ++ "boom" ++ post := by
  have H := C5_failed_status_raises 100 5 0 (Json.str "J1")
    [("status", Json.str "failed"), ("error", Json.str "boom")] [] "failed"
    (by decide) rfl (Or.inl rfl)
  exact ⟨H.1, H.2 "boom" rfl⟩

lemma decodeLoop_ok : ∀ (rows : List Row) (acc recs : List MapsResult),
    decodeLoop acc rows = Except.ok recs →
    recs.length = acc.length + rows.length ∧
    (∀ i, i < acc.length → recs[i]? = acc[i]?) ∧
    (∀ i, i < rows.length →
       (rows[i]?).map MapsResult.from_csv_row = (recs[acc.length + i]?).map Except.ok) := by
  intro rows
  induction rows with
  | nil =>
    intro acc recs h
    unfold decodeLoop at h
    injection h with h
    subst h
    refine ⟨by simp, fun i _ => rfl, ?_⟩
    intro i hi
    exact absurd hi (by simp)
  | cons row rest ih =>
    intro acc recs h
    unfold decodeLoop at h
    cases hd : MapsResult.from_csv_row row with
    | error e => rw [hd] at h; cases h
    | ok r =>
      rw [hd] at h
      obtain ⟨ihlen, ihpre, ihrows⟩ := ih (acc ++ [r]) recs h
      refine ⟨by simp at ihlen ⊢; omega, ?_, ?_⟩
      · intro i hi
        have h1 := ihpre i (by simp; omega)
        rw [h1, List.getElem?_append]
        rw [if_pos hi]
      · intro i hi
        cases i with
        | zero =>
          have h1 := ihpre acc.length (by simp)
          rw [show acc.length + 0 = acc.length from rfl, h1,
            List.getElem?_concat_length acc r]
          simp [hd]
        | succ n =>
          have hn : n < rest.length := by
            simp [List.length_cons] at hi
            omega
          have := ihrows n hn
          rw [List.getElem?_cons_succ]
          rw [show acc.length + (n + 1) = (acc ++ [r]).length + n by simp; omega]
          exact this

/-- Claim C1: fetch_places composes submit, poll, download and per-row
decode; the first failing stage determines the overall result, whose error
value is passed through unchanged and carries no partial results, and on
full success the decoded records correspond one to one, in order, to the
rows of the downloaded CSV payload. -/
theorem C1_fetch_places_composes (svc : FakeService) (timeout_s poll_s : Nat) :
    (∀ e, submit_job svc.submitResp = Except.error e →
       fetch_places svc timeout_s poll_s = some (Except.error e)) ∧
    (∀ jobId e, submit_job svc.submitResp = Except.ok jobId →
       wait_for_job timeout_s poll_s jobId 0 svc.statusResps = PollOutcome.err e →
       fetch_places svc timeout_s poll_s = some (Except.error e)) ∧
    (∀ jobId p e, submit_job svc.submitResp = Except.ok jobId →
       wait_for_job timeout_s poll_s jobId 0 svc.statusResps = PollOutcome.ok p →
       download_csv svc.downloadResp = Except.error e →
       fetch_places svc timeout_s poll_s = some (Except.error e)) ∧
    (∀ jobId p text e, submit_job svc.submitResp = Except.ok jobId →
       wait_for_job timeout_s poll_s jobId 0 svc.statusResps = PollOutcome.ok p →
       download_csv svc.downloadResp = Except.ok text →
       decodeLoop [] (csvDictRows text) = Except.error e →
       fetch_places svc timeout_s poll_s = some (Except.error e)) ∧
    (∀ jobId p text recs, submit_job svc.submitResp = Except.ok jobId →
       wait_for_job timeout_s poll_s jobId 0 svc.statusResps = PollOutcome.ok p →
       download_csv svc.downloadResp = Except.ok text →
       decodeLoop [] (csvDictRows text) = Except.ok recs →
       fetch_places svc timeout_s poll_s = some (Except.ok recs) ∧
       recs.length = (csvDictRows text).length ∧
       ∀ i, i < (csvDictRows text).length →
         ((csvDictRows text)[i]?).map MapsResult.from_csv_row
           = (recs[i]?).map Except.ok) := by
  refine ⟨?_, ?_, ?_, ?_, ?_⟩
  · intro e hsub
    simp [fetch_places, hsub]
  · intro jobId e hsub hwait
    simp [fetch_places, hsub, hwait]
  · intro jobId p e hsub hwait hdl
    simp [fetch_places, hsub, hwait, hdl]
  · intro jobId p text e hsub hwait hdl hdec
    simp [fetch_places, hsub, hwait, hdl, hdec]
  · intro jobId p text recs hsub hwait hdl hdec
    obtain ⟨hlen, -, hrows⟩ := decodeLoop_ok (csvDictRows text) [] recs hdec
    refine ⟨by simp [fetch_places, hsub, hwait, hdl, hdec], by simpa using hlen, ?_⟩
    intro i hi
    have := hrows i hi
    simpa using this

/-- Witness for C1: a service that accepts the job, reports ok on the
second poll and serves a two-row CSV produces the two records in row
order. -/
theorem C1_fetch_places_composes_witness :
    ∃ recs,
      decodeLoop [] (csvDictRows "title,review_count\nCafe,12.0\nBar,abc\n")
        = Except.ok recs ∧
      fetch_places
        (FakeService.mk
          (SubmitResponse.mk 201 "" (some (Json.obj [("id", Json.str "J1")])))
          [StatusResponse.mk 404 none,
           StatusResponse.mk 200 (some (Json.obj [("status", Json.str "ok")]))]
          (DownloadResponse.mk 200 "title,review_count\nCafe,12.0\nBar,abc\n"))
        100 5
        = some (Except.ok recs) ∧
      recs.length = 2 := by
  have hok : (decodeLoop [] (csvDictRows "title,review_count\nCafe,12.0\nBar,abc\n")).isOk
      = true := by with_unfolding_all rfl
  cases hcase : decodeLoop [] (csvDictRows "title,review_count\nCafe,12.0\nBar,abc\n") with
  | error e => rw [hcase] at hok; cases hok
  | ok recs =>
    have H := (C1_fetch_places_composes
      (FakeService.mk
        (SubmitResponse.mk 201 "" (some (Json.obj [("id", Json.str "J1")])))
        [StatusResponse.mk 404 none,
         StatusResponse.mk 200 (some (Json.obj [("status", Json.str "ok")]))]
        (DownloadResponse.mk 200 "title,review_count\nCafe,12.0\nBar,abc\n"))
      100 5).2.2.2.2 (Json.str "J1") (Json.obj [("status", Json.str "ok")])
      "title,review_count\nCafe,12.0\nBar,abc\n" recs rfl rfl rfl hcase
    exact ⟨recs, rfl, H.1, H.2.1.trans (by with_unfolding_all rfl)⟩

end PyMaps
